import Mathlib

set_option maxHeartbeats 1000000

/-!
Shallow embedding of the two DirectX 12 demos in HollowEmiya/DriectX12Study:
`StencilApp` (stencil mirror/shadow scene) and `BoxApp` (colored box), both in
`src/StencilDemo/StencilDemo/StencilApp.cpp`.  Real-valued GPU math is modelled
over `ℚ` where the operations are field operations (camera angles, clamps,
constant-buffer contents) and over `ℝ` where trigonometry is involved
(the spherical camera and the view matrix of `BoxApp`).
-/

/-- Modelled from the spec: `MathHelper::Pi` from `Common/MathHelper.h`, which is
not under `src/`.  It is the single-precision approximation of pi of the textbook
framework; the rational model uses the value `3.1415926535`. -/
def MathHelper.Pi : ℚ := 3.1415926535

/-- Modelled from the spec: `MathHelper::Clamp(x, low, high)` from
`Common/MathHelper.h`, which is not under `src/`.  The spec's camera claims
describe its behaviour as clamping into a closed range: it returns `low` when
`x < low`, `high` when `x > high`, and `x` otherwise. -/
def MathHelper.Clamp {α : Type} [LinearOrderedField α] (x low high : α) : α :=
  if x < low then low else if high < x then high else x

/-- Modelled from the spec: `MathHelper::Max(a, b)` from `Common/MathHelper.h`,
which is not under `src/`: it returns `a` when `a > b` and `b` otherwise. -/
def MathHelper.Max {α : Type} [LinearOrderedField α] (a b : α) : α :=
  if b < a then a else b

/-- `XMConvertToRadians(deg) = deg * (XM_PI / 180)` from DirectXMath, with the
pi constant passed explicitly (`ℚ` model uses `MathHelper.Pi`, `ℝ` model uses
`Real.pi`). -/
def XMConvertToRadians {α : Type} [LinearOrderedField α] (pi x : α) : α :=
  x * (pi / 180)

/-- The mouse-relevant camera state shared by `BoxApp` and `StencilApp`:
`mTheta`, `mPhi`, `mRadius` and `mLastMousePos`. -/
structure CameraState (α : Type) where
  theta : α
  phi : α
  radius : α
  lastX : ℤ
  lastY : ℤ

/-- The `MK_LBUTTON` / `MK_RBUTTON` bits of the `btnState` bitmask passed to the
mouse handlers. -/
structure MouseButtons where
  left : Bool
  right : Bool

/-- `OnMouseDown` of both apps: record the mouse position (and capture the
mouse, which has no effect on this state). -/
def onMouseDown {α : Type} (x y : ℤ) (s : CameraState α) : CameraState α :=
  { s with lastX := x, lastY := y }

/-- `OnMouseMove` of both apps, parameterised by the pi constant, the radius
drag speed (`0.01` in `BoxApp`, `0.2` in `StencilApp`) and the radius clamp
bounds (`[3,15]` in `BoxApp`, `[5,150]` in `StencilApp`).  Left drag adds a
quarter-degree-per-pixel delta to `theta`/`phi` and clamps `phi` to
`[0.1, pi - 0.1]`; otherwise right drag moves `radius` and clamps it; the last
mouse position is recorded in either case. -/
def onMouseMove {α : Type} [LinearOrderedField α] (pi rSpeed rLow rHigh : α)
    (btn : MouseButtons) (x y : ℤ) (s : CameraState α) : CameraState α :=
  let s1 :=
    if btn.left then
      let dx := XMConvertToRadians pi ((1/4) * ((x : α) - (s.lastX : α)))
      let dy := XMConvertToRadians pi ((1/4) * ((y : α) - (s.lastY : α)))
      { s with
        theta := s.theta + dx
        phi := MathHelper.Clamp (s.phi + dy) (1/10) (pi - 1/10) }
    else if btn.right then
      let dx := rSpeed * ((x : α) - (s.lastX : α))
      let dy := rSpeed * ((y : α) - (s.lastY : α))
      { s with radius := MathHelper.Clamp (s.radius + dx - dy) rLow rHigh }
    else
      s
  { s1 with lastX := x, lastY := y }

/-- States of the camera reachable from the initial member values through the
mouse handlers; `frame` covers `Update`/`Draw`/`OnResize`/`OnKeyboardInput`,
none of which writes `mTheta`, `mPhi`, `mRadius` or `mLastMousePos`.
`mLastMousePos` is an uninitialised `POINT`, so the start state allows any
value for it. -/
inductive CamReachable (pi rSpeed rLow rHigh theta0 phi0 radius0 : ℚ) :
    CameraState ℚ → Prop where
  | start (lx ly : ℤ) :
      CamReachable pi rSpeed rLow rHigh theta0 phi0 radius0
        ⟨theta0, phi0, radius0, lx, ly⟩
  | mouseDown {s} (x y : ℤ) :
      CamReachable pi rSpeed rLow rHigh theta0 phi0 radius0 s →
      CamReachable pi rSpeed rLow rHigh theta0 phi0 radius0 (onMouseDown x y s)
  | mouseUp {s} :
      CamReachable pi rSpeed rLow rHigh theta0 phi0 radius0 s →
      CamReachable pi rSpeed rLow rHigh theta0 phi0 radius0 s
  | mouseMove {s} (btn : MouseButtons) (x y : ℤ) :
      CamReachable pi rSpeed rLow rHigh theta0 phi0 radius0 s →
      CamReachable pi rSpeed rLow rHigh theta0 phi0 radius0
        (onMouseMove pi rSpeed rLow rHigh btn x y s)
  | frame {s} :
      CamReachable pi rSpeed rLow rHigh theta0 phi0 radius0 s →
      CamReachable pi rSpeed rLow rHigh theta0 phi0 radius0 s

theorem MathHelper.Clamp_mem {α : Type} [LinearOrderedField α]
    {x low high : α} (h : low ≤ high) :
    low ≤ MathHelper.Clamp x low high ∧ MathHelper.Clamp x low high ≤ high := by
  unfold MathHelper.Clamp
  split_ifs with h1 h2
  · exact ⟨le_refl _, h⟩
  · exact ⟨h, le_refl _⟩
  · exact ⟨le_of_not_lt h1, le_of_not_lt h2⟩

theorem camReachable_bounds (pi rSpeed rLow rHigh theta0 phi0 radius0 : ℚ)
    (hpi : (1/10 : ℚ) ≤ pi - 1/10) (hr : rLow ≤ rHigh)
    (hphi0 : 1/10 ≤ phi0 ∧ phi0 ≤ pi - 1/10)
    (hrad0 : rLow ≤ radius0 ∧ radius0 ≤ rHigh) :
    ∀ s, CamReachable pi rSpeed rLow rHigh theta0 phi0 radius0 s →
      (1/10 ≤ s.phi ∧ s.phi ≤ pi - 1/10) ∧ (rLow ≤ s.radius ∧ s.radius ≤ rHigh) := by
  intro s h
  induction h with
  | start lx ly => exact ⟨hphi0, hrad0⟩
  | mouseDown x y _ ih => exact ih
  | mouseUp _ ih => exact ih
  | frame _ ih => exact ih
  | mouseMove btn x y _ ih =>
      unfold onMouseMove
      by_cases hl : btn.left
      · simp only [hl, if_true]
        exact ⟨MathHelper.Clamp_mem hpi, ih.2⟩
      · by_cases hrt : btn.right
        · simp only [hl, hrt, if_false, if_true]
          exact ⟨ih.1, MathHelper.Clamp_mem hr⟩
        · simp only [hl, hrt, if_false]
          exact ih

/-- Initial camera members of `BoxApp`: `mTheta = 1.5f*XM_PI`,
`mPhi = XM_PIDIV4`, `mRadius = 5.0f` (the DirectXMath pi constants are modelled
by `MathHelper.Pi`); `mLastMousePos` is uninitialised. -/
def BoxApp.camInit (lx ly : ℤ) : CameraState ℚ :=
  ⟨1.5 * MathHelper.Pi, MathHelper.Pi / 4, 5, lx, ly⟩

/-- Camera states of `BoxApp` reachable from its initial members through its
handlers (radius drag speed `0.01`, radius clamp `[3, 15]`). -/
def BoxApp.CamReach : CameraState ℚ → Prop :=
  CamReachable MathHelper.Pi 0.01 3 15 (1.5 * MathHelper.Pi) (MathHelper.Pi / 4) 5

/-- Initial camera members of `StencilApp`: `mTheta = 1.24f*XM_PI`,
`mPhi = 0.42f*XM_PI`, `mRadius = 12.0f`. -/
def StencilApp.camInit (lx ly : ℤ) : CameraState ℚ :=
  ⟨1.24 * MathHelper.Pi, 0.42 * MathHelper.Pi, 12, lx, ly⟩

/-- Camera states of `StencilApp` reachable from its initial members through
its handlers (radius drag speed `0.2`, radius clamp `[5, 150]`). -/
def StencilApp.CamReach : CameraState ℚ → Prop :=
  CamReachable MathHelper.Pi 0.2 5 150 (1.24 * MathHelper.Pi) (0.42 * MathHelper.Pi) 12

/-- C9: in both demos, after every `OnMouseMove` call the polar angle `mPhi`
lies in `[0.1, Pi - 0.1]` and the camera radius lies in its clamp range
(`[3, 15]` for `BoxApp`, `[5, 150]` for `StencilApp`); the initial values lie
inside these ranges and no other operation moves them outside, so the bounds
hold in every reachable state. -/
theorem camera_control_invariant :
    (∀ s, BoxApp.CamReach s →
      ((0.1 : ℚ) ≤ s.phi ∧ s.phi ≤ MathHelper.Pi - 0.1) ∧
      (3 ≤ s.radius ∧ s.radius ≤ 15)) ∧
    (∀ s, StencilApp.CamReach s →
      ((0.1 : ℚ) ≤ s.phi ∧ s.phi ≤ MathHelper.Pi - 0.1) ∧
      (5 ≤ s.radius ∧ s.radius ≤ 150)) := by
  have e1 : (0.1 : ℚ) = 1/10 := by norm_num
  constructor
  · intro s hs
    have h := camReachable_bounds MathHelper.Pi 0.01 3 15
      (1.5 * MathHelper.Pi) (MathHelper.Pi / 4) 5
      (by norm_num [MathHelper.Pi]) (by norm_num)
      (by constructor <;> norm_num [MathHelper.Pi])
      (by norm_num) s hs
    rw [e1]
    exact h
  · intro s hs
    have h := camReachable_bounds MathHelper.Pi 0.2 5 150
      (1.24 * MathHelper.Pi) (0.42 * MathHelper.Pi) 12
      (by norm_num [MathHelper.Pi]) (by norm_num)
      (by constructor <;> norm_num [MathHelper.Pi])
      (by norm_num) s hs
    rw [e1]
    exact h

/-- Witness for `camera_control_invariant` at the initial states of both
demos. -/
theorem camera_control_invariant_witness :
    (((0.1 : ℚ) ≤ (BoxApp.camInit 0 0).phi ∧
      (BoxApp.camInit 0 0).phi ≤ MathHelper.Pi - 0.1) ∧
     (3 ≤ (BoxApp.camInit 0 0).radius ∧ (BoxApp.camInit 0 0).radius ≤ 15)) ∧
    (((0.1 : ℚ) ≤ (StencilApp.camInit 0 0).phi ∧
      (StencilApp.camInit 0 0).phi ≤ MathHelper.Pi - 0.1) ∧
     (5 ≤ (StencilApp.camInit 0 0).radius ∧ (StencilApp.camInit 0 0).radius ≤ 150)) :=
  ⟨camera_control_invariant.1 _ (CamReachable.start 0 0),
   camera_control_invariant.2 _ (CamReachable.start 0 0)⟩

/-- `const int gNumFrameResources = 3` (StencilApp.cpp line 11). -/
def gNumFrameResources : ℕ := 3

/-- The per-frame-resource fence value `FrameResource::Fence`. -/
structure FrameResourceFence where
  Fence : ℕ

/-- Modelled from the spec: `StencilApp::BuildFrameResources` is declared and
called in the source, but its definition (and `FrameResource.h`) is not under
`src/`; per the spec's triple-buffered frame resources it creates one
`FrameResource` per `gNumFrameResources`, each with `Fence` initialised to
`0`. -/
def BuildFrameResources : List FrameResourceFence :=
  List.replicate gNumFrameResources ⟨0⟩

/-- `mCurrFrameResourceIndex = (mCurrFrameResourceIndex + 1) % gNumFrameResources`
(StencilApp.cpp line 206). -/
def advanceFrameResourceIndex (i : ℕ) : ℕ :=
  (i + 1) % gNumFrameResources

/-- The value of `mCurrFrameResourceIndex` after `n` calls of
`StencilApp::Update`, starting from the initial member value `0`. -/
def frameResourceIndexAfter : ℕ → ℕ
  | 0 => 0
  | n + 1 => advanceFrameResourceIndex (frameResourceIndexAfter n)

theorem frameResourceIndexAfter_eq (n : ℕ) : frameResourceIndexAfter n = n % 3 := by
  induction n with
  | zero => rfl
  | succ n ih =>
      unfold frameResourceIndexAfter advanceFrameResourceIndex gNumFrameResources
      rw [ih]
      omega

/-- C3: the application holds exactly `gNumFrameResources = 3` frame resources,
every `Update` advances `mCurrFrameResourceIndex` by one modulo 3, the index
always lies in `{0, 1, 2}`, and the same frame resource recurs exactly when the
frame numbers agree modulo 3. -/
theorem triple_buffered_frame_resources :
    gNumFrameResources = 3 ∧
    BuildFrameResources.length = gNumFrameResources ∧
    (∀ i, advanceFrameResourceIndex i = (i + 1) % 3) ∧
    (∀ n, frameResourceIndexAfter n < 3) ∧
    (∀ n m, frameResourceIndexAfter n = frameResourceIndexAfter m ↔ n % 3 = m % 3) := by
  refine ⟨rfl, rfl, fun i => rfl, fun n => ?_, fun n m => ?_⟩
  · rw [frameResourceIndexAfter_eq]; omega
  · rw [frameResourceIndexAfter_eq, frameResourceIndexAfter_eq]

/-- The synchronization-relevant state of `StencilApp`: the fence value
recorded in each of the three frame resources, the current frame resource
index, the last fence value signalled on the command queue (`mCurrentFence`),
and the fence value the GPU has completed (`mFence->GetCompletedValue()`). -/
structure SyncState where
  frameFence : Fin 3 → ℕ
  idx : Fin 3
  currentFence : ℕ
  completed : ℕ

/-- The frame resource index selected by the next `Update`
(`(mCurrFrameResourceIndex + 1) % gNumFrameResources`). -/
def SyncState.nextIdx (s : SyncState) : Fin 3 :=
  ⟨((s.idx : ℕ) + 1) % 3, Nat.mod_lt _ (by norm_num)⟩

/-- The completed fence value guaranteed after the conditional wait in
`StencilApp::Update` (lines 209-215): when the next frame resource's fence is
positive and not yet completed, the CPU blocks until the GPU reaches it. -/
def SyncState.afterWait (s : SyncState) : ℕ :=
  if 0 < s.frameFence s.nextIdx ∧ s.completed < s.frameFence s.nextIdx then
    s.frameFence s.nextIdx
  else
    s.completed

/-- One `Update`+`Draw` iteration of `StencilApp` as it affects the fence
state: advance the index, perform the conditional wait, reset the selected
frame resource's allocator, record the commands, and after submission set
`mCurrFrameResource->Fence = ++mCurrentFence` and signal it on the queue
(lines 206-215 and 226-299). -/
def SyncState.frameStep (s : SyncState) : SyncState :=
  { frameFence := Function.update s.frameFence s.nextIdx (s.currentFence + 1)
    idx := s.nextIdx
    currentFence := s.currentFence + 1
    completed := s.afterWait }

/-- Fence states reachable from program start (all frame fences `0`,
`mCurrentFence = 0`, nothing completed): the GPU may complete work up to the
last signalled fence at any time, and the CPU runs frame iterations. -/
inductive SyncReachable : SyncState → Prop where
  | start : SyncReachable ⟨fun _ => 0, 0, 0, 0⟩
  | gpu {s} (c : ℕ) :
      SyncReachable s → s.completed ≤ c → c ≤ s.currentFence →
      SyncReachable { s with completed := c }
  | frame {s} : SyncReachable s → SyncReachable s.frameStep

theorem SyncState.afterWait_ge (s : SyncState) :
    s.frameFence s.nextIdx ≤ s.afterWait := by
  unfold SyncState.afterWait
  split_ifs with h
  · exact le_refl _
  · rcases Nat.lt_or_ge 0 (s.frameFence s.nextIdx) with hp | hz
    · rcases Nat.lt_or_ge s.completed (s.frameFence s.nextIdx) with hlt | hge
      · exact absurd ⟨hp, hlt⟩ h
      · exact hge
    · omega

theorem syncReachable_fence_bounds {s : SyncState} (h : SyncReachable s) :
    s.completed ≤ s.currentFence ∧ ∀ i, s.frameFence i ≤ s.currentFence := by
  induction h with
  | start => exact ⟨le_refl _, fun i => Nat.zero_le _⟩
  | gpu c _ _ hc ih => exact ⟨hc, ih.2⟩
  | frame _ ih =>
      simp only [SyncState.frameStep]
      constructor
      · unfold SyncState.afterWait
        split_ifs with hw
        · exact Nat.le_succ_of_le (ih.2 _)
        · exact Nat.le_succ_of_le ih.1
      · intro i
        rename_i t _
        by_cases hi : i = t.nextIdx
        · rw [hi, Function.update_same]
        · rw [Function.update_noteq hi]
          exact Nat.le_succ_of_le (ih.2 i)

/-- C2: `StencilApp` never resets a frame resource's command allocator while
the GPU may still be executing commands recorded through it.  In every
reachable fence state: the completed value never exceeds the last signalled
fence; every frame resource's recorded fence was signalled; after the
conditional wait of `Update`, the completed value has reached the fence
recorded in the frame resource about to be reset; and the frame iteration
records a fresh fence value, strictly greater than every previously recorded
one, into that frame resource. -/
theorem frame_resource_fence_protocol (s : SyncState) (h : SyncReachable s) :
    s.completed ≤ s.currentFence ∧
    (∀ i, s.frameFence i ≤ s.currentFence) ∧
    s.frameFence s.nextIdx ≤ s.afterWait ∧
    (∀ i, s.frameFence i < s.frameStep.currentFence) ∧
    s.frameStep.frameFence s.nextIdx = s.currentFence + 1 := by
  obtain ⟨h1, h2⟩ := syncReachable_fence_bounds h
  refine ⟨h1, h2, s.afterWait_ge, fun i => ?_, ?_⟩
  · exact Nat.lt_succ_of_le (h2 i)
  · show Function.update _ _ _ _ = _
    rw [Function.update_same]

/-- Witness for `frame_resource_fence_protocol` at the start state. -/
theorem frame_resource_fence_protocol_witness :
    let s0 : SyncState := ⟨fun _ => 0, 0, 0, 0⟩
    s0.completed ≤ s0.currentFence ∧
    (∀ i, s0.frameFence i ≤ s0.currentFence) ∧
    s0.frameFence s0.nextIdx ≤ s0.afterWait ∧
    (∀ i, s0.frameFence i < s0.frameStep.currentFence) ∧
    s0.frameStep.frameFence s0.nextIdx = s0.currentFence + 1 :=
  frame_resource_fence_protocol ⟨fun _ => 0, 0, 0, 0⟩ SyncReachable.start

/-- The pipeline state objects looked up in `mPSOs` by `StencilApp::Draw`. -/
inductive PSOKey where
  | OpaquePSO
  | MarkStencilMirrors
  | DrawStencilReflections
  | TransparentPSO
  | ShadowPSO
deriving DecidableEq

/-- The render layers of `StencilApp` (`enum class RenderLayer`). -/
inductive RenderLayer where
  | Opaque
  | Mirrors
  | Reflected
  | Transparent
  | Shadow
deriving DecidableEq

/-- The commands `StencilApp::Draw` issues, in recording order.  GPU virtual
addresses passed to `SetGraphicsRootConstantBufferView` are natural numbers;
`DrawLayer l` stands for `DrawRenderItems(mCommandList.Get(), mRitemLayer[l])`. -/
inductive StencilCmd where
  | ResetAllocator
  | ResetList (initialPSO : PSOKey)
  | SetViewports
  | SetScissorRects
  | BarrierPresentToRenderTarget
  | ClearRenderTargetView
  | ClearDepthStencilView
  | SetRenderTargets
  | SetDescriptorHeaps
  | SetRootSignature
  | SetPassCB (slot : ℕ) (addr : ℕ)
  | SetStencilRef (v : ℕ)
  | SetPipelineState (pso : PSOKey)
  | DrawLayer (layer : RenderLayer)
  | BarrierRenderTargetToPresent
  | CloseList
  | ExecuteLists
  | Present
  | AdvanceBackBuffer
  | RecordFrameFence
  | SignalFence
deriving DecidableEq

/-- `StencilApp::Draw` (lines 224-300), transcribed as the sequence of calls it
makes, parameterised by the pass constant buffer's GPU base address
(`passCB->GetGPUVirtualAddress()`) and by
`passCBByteSize = d3dUtil::CalcConstantBufferByteSize(sizeof(PassConstants))`. -/
def stencilDraw (passCBBase passCBByteSize : ℕ) : List StencilCmd :=
  [ StencilCmd.ResetAllocator,
    StencilCmd.ResetList PSOKey.OpaquePSO,
    StencilCmd.SetViewports,
    StencilCmd.SetScissorRects,
    StencilCmd.BarrierPresentToRenderTarget,
    StencilCmd.ClearRenderTargetView,
    StencilCmd.ClearDepthStencilView,
    StencilCmd.SetRenderTargets,
    StencilCmd.SetDescriptorHeaps,
    StencilCmd.SetRootSignature,
    StencilCmd.SetPassCB 2 passCBBase,
    StencilCmd.DrawLayer RenderLayer.Opaque,
    StencilCmd.SetStencilRef 1,
    StencilCmd.SetPipelineState PSOKey.MarkStencilMirrors,
    StencilCmd.DrawLayer RenderLayer.Mirrors,
    StencilCmd.SetPassCB 2 (passCBBase + 1 * passCBByteSize),
    StencilCmd.SetPipelineState PSOKey.DrawStencilReflections,
    StencilCmd.DrawLayer RenderLayer.Reflected,
    StencilCmd.SetPassCB 2 passCBBase,
    StencilCmd.SetStencilRef 0,
    StencilCmd.SetPipelineState PSOKey.TransparentPSO,
    StencilCmd.DrawLayer RenderLayer.Transparent,
    StencilCmd.SetPipelineState PSOKey.ShadowPSO,
    StencilCmd.DrawLayer RenderLayer.Shadow,
    StencilCmd.BarrierRenderTargetToPresent,
    StencilCmd.CloseList,
    StencilCmd.ExecuteLists,
    StencilCmd.Present,
    StencilCmd.AdvanceBackBuffer,
    StencilCmd.RecordFrameFence,
    StencilCmd.SignalFence ]

/-- C1: every frame, `StencilApp::Draw` records the multi-pass stencil
sequence in this fixed order: clear the render target and depth/stencil
buffer; draw the Opaque layer with the main pass constant buffer bound; set
the stencil reference to 1 and draw the Mirrors layer with the
`markStencilMirrors` pipeline state; bind the reflected pass constants (the
pass buffer base address offset by one aligned `PassConstants` size) and draw
the Reflected layer with `drawStencilReflections`; restore the main pass
constants and stencil reference 0; draw the Transparent layer with the
`transparent` pipeline state; and draw the Shadow layer with the `shadow`
pipeline state. -/
theorem stencil_draw_multipass_order (passCBBase passCBByteSize : ℕ) :
    ∃ pre post,
      stencilDraw passCBBase passCBByteSize =
        pre ++
        [ StencilCmd.ClearRenderTargetView,
          StencilCmd.ClearDepthStencilView,
          StencilCmd.SetRenderTargets,
          StencilCmd.SetDescriptorHeaps,
          StencilCmd.SetRootSignature,
          StencilCmd.SetPassCB 2 passCBBase,
          StencilCmd.DrawLayer RenderLayer.Opaque,
          StencilCmd.SetStencilRef 1,
          StencilCmd.SetPipelineState PSOKey.MarkStencilMirrors,
          StencilCmd.DrawLayer RenderLayer.Mirrors,
          StencilCmd.SetPassCB 2 (passCBBase + 1 * passCBByteSize),
          StencilCmd.SetPipelineState PSOKey.DrawStencilReflections,
          StencilCmd.DrawLayer RenderLayer.Reflected,
          StencilCmd.SetPassCB 2 passCBBase,
          StencilCmd.SetStencilRef 0,
          StencilCmd.SetPipelineState PSOKey.TransparentPSO,
          StencilCmd.DrawLayer RenderLayer.Transparent,
          StencilCmd.SetPipelineState PSOKey.ShadowPSO,
          StencilCmd.DrawLayer RenderLayer.Shadow ] ++ post :=
  ⟨[ StencilCmd.ResetAllocator,
     StencilCmd.ResetList PSOKey.OpaquePSO,
     StencilCmd.SetViewports,
     StencilCmd.SetScissorRects,
     StencilCmd.BarrierPresentToRenderTarget ],
   [ StencilCmd.BarrierRenderTargetToPresent,
     StencilCmd.CloseList,
     StencilCmd.ExecuteLists,
     StencilCmd.Present,
     StencilCmd.AdvanceBackBuffer,
     StencilCmd.RecordFrameFence,
     StencilCmd.SignalFence ], rfl⟩

/-- The calls on the per-frame CPU path (`Update` then `Draw`) of either demo,
at the granularity of which calls block the CPU on the GPU fence. -/
inductive FrameOp where
  | KeyboardInput
  | UpdateCameraOp
  | AdvanceFrameIndex
  | WaitFenceConditional
  | AnimateMaterialsOp
  | UpdateObjectCBsOp
  | UpdateMaterialCBsOp
  | UpdateMainPassCBOp
  | UpdateReflectedPassCBOp
  | BuildViewProjAndUpload
  | RecordCommandList
  | ExecuteCommandLists
  | PresentSwapChain
  | RecordAndSignalFence
  | FlushCommandQueueOp
deriving DecidableEq

/-- Whether a per-frame call blocks the CPU on the GPU fence: only the
conditional wait in `StencilApp::Update` (lines 209-215) and the unconditional
`FlushCommandQueue` (a `SetEventOnCompletion` + `WaitForSingleObject` on the
fence) do. -/
def FrameOp.blocksOnFence : FrameOp → Bool
  | FrameOp.WaitFenceConditional => true
  | FrameOp.FlushCommandQueueOp => true
  | _ => false

/-- `StencilApp::Update` (lines 201-222) as its sequence of calls. -/
def stencilUpdateOps : List FrameOp :=
  [ FrameOp.KeyboardInput,
    FrameOp.UpdateCameraOp,
    FrameOp.AdvanceFrameIndex,
    FrameOp.WaitFenceConditional,
    FrameOp.AnimateMaterialsOp,
    FrameOp.UpdateObjectCBsOp,
    FrameOp.UpdateMaterialCBsOp,
    FrameOp.UpdateMainPassCBOp,
    FrameOp.UpdateReflectedPassCBOp ]

/-- `StencilApp::Draw` (lines 224-300) at the same granularity. -/
def stencilDrawOps : List FrameOp :=
  [ FrameOp.RecordCommandList,
    FrameOp.ExecuteCommandLists,
    FrameOp.PresentSwapChain,
    FrameOp.RecordAndSignalFence ]

/-- `BoxApp::Update` (lines 599-622): recompute the view and world-view-proj
matrices and upload them; nothing blocks. -/
def boxUpdateOps : List FrameOp :=
  [ FrameOp.BuildViewProjAndUpload ]

/-- `BoxApp::Draw` (lines 624-684): record, submit, present, then the
unconditional `FlushCommandQueue()` at the end. -/
def boxDrawOps : List FrameOp :=
  [ FrameOp.RecordCommandList,
    FrameOp.ExecuteCommandLists,
    FrameOp.PresentSwapChain,
    FrameOp.FlushCommandQueueOp ]

/-- C6: each frame's fixed sequence of GPU command recording is bracketed by a
single blocking fence wait.  In `BoxApp` the only per-frame blocking wait is
the unconditional `FlushCommandQueue` at the end of `Draw`; in `StencilApp`
the only per-frame blocking wait is the single conditional fence wait in
`Update`, placed before every constant-buffer update and before `Draw`; no
other call on the per-frame path blocks the CPU on the GPU fence. -/
theorem single_blocking_fence_wait_per_frame :
    (boxUpdateOps ++ boxDrawOps).filter FrameOp.blocksOnFence =
      [FrameOp.FlushCommandQueueOp] ∧
    boxDrawOps.getLast? = some FrameOp.FlushCommandQueueOp ∧
    (stencilUpdateOps ++ stencilDrawOps).filter FrameOp.blocksOnFence =
      [FrameOp.WaitFenceConditional] ∧
    stencilDrawOps.filter FrameOp.blocksOnFence = [] ∧
    stencilUpdateOps.indexOf FrameOp.WaitFenceConditional <
      stencilUpdateOps.indexOf FrameOp.UpdateObjectCBsOp ∧
    stencilUpdateOps.indexOf FrameOp.WaitFenceConditional <
      stencilUpdateOps.indexOf FrameOp.UpdateMaterialCBsOp ∧
    stencilUpdateOps.indexOf FrameOp.WaitFenceConditional <
      stencilUpdateOps.indexOf FrameOp.UpdateMainPassCBOp ∧
    stencilUpdateOps.indexOf FrameOp.WaitFenceConditional <
      stencilUpdateOps.indexOf FrameOp.UpdateReflectedPassCBOp := by
  decide

/-- 4x4 matrices over the rational model of float arithmetic, multiplied in
DirectXMath's row-vector convention. -/
abbrev Mat4Q := Matrix (Fin 4) (Fin 4) ℚ

/-- The update-relevant fields of `RenderItem` (StencilApp.cpp lines 13-33);
the dirty counter is spelled `NumFrameDirety` in the source. -/
structure RenderItemState where
  World : Mat4Q
  TexTransform : Mat4Q
  NumFrameDirety : ℤ
  ObjCBIndex : ℕ

/-- The per-object constants uploaded by `StencilApp::UpdateObjectCBs`. -/
structure StencilApp.ObjectConstants where
  World : Mat4Q
  TexTransform : Mat4Q
deriving DecidableEq

/-- `StencilApp::UpdateObjectCBs` (lines 406-425): for each render item with a
positive dirty counter, build `ObjectConstants` from the transposed world and
texture-transform matrices, call `CopyData(e->ObjCBIndex, objConstants)` on the
current frame resource's object upload buffer, and decrement the counter.  The
second component collects the `CopyData` calls in order. -/
def StencilApp.UpdateObjectCBs :
    List RenderItemState → List RenderItemState × List (ℕ × StencilApp.ObjectConstants)
  | [] => ([], [])
  | e :: rest =>
    let tail := StencilApp.UpdateObjectCBs rest
    if 0 < e.NumFrameDirety then
      ({ e with NumFrameDirety := e.NumFrameDirety - 1 } :: tail.1,
       (e.ObjCBIndex, ⟨e.World.transpose, e.TexTransform.transpose⟩) :: tail.2)
    else
      (e :: tail.1, tail.2)

/-- C5: on every per-frame update, every render item with a positive
`NumFrameDirety` counter gets its transposed world and texture-transform
matrices written into the current frame resource's object upload buffer at its
`ObjCBIndex` and its counter decremented by one, while items with a
non-positive counter get no write and are left unchanged. -/
theorem object_cb_update_writes (items : List RenderItemState) :
    (StencilApp.UpdateObjectCBs items).2 =
      (items.filter fun e => decide (0 < e.NumFrameDirety)).map
        (fun e => (e.ObjCBIndex,
          ⟨e.World.transpose, e.TexTransform.transpose⟩)) ∧
    (StencilApp.UpdateObjectCBs items).1 =
      items.map fun e =>
        if 0 < e.NumFrameDirety then
          { e with NumFrameDirety := e.NumFrameDirety - 1 }
        else e := by
  induction items with
  | nil => exact ⟨rfl, rfl⟩
  | cons e rest ih =>
      by_cases h : 0 < e.NumFrameDirety
      · simp [StencilApp.UpdateObjectCBs, h, List.filter_cons, ih.1, ih.2]
      · simp [StencilApp.UpdateObjectCBs, h, List.filter_cons, ih.1, ih.2]

/-- The update-relevant fields of the framework's `Material` struct. -/
structure MaterialState where
  DiffuseAlbedo : Fin 4 → ℚ
  FresnelR0 : Fin 3 → ℚ
  Roughness : ℚ
  MatTransform : Mat4Q
  MatCBIndex : ℕ
  NumFramesDirty : ℤ

/-- The `MaterialConstants` record built by the material update pass. -/
structure MaterialConstants where
  DiffuseAlbedo : Fin 4 → ℚ
  FresnelR0 : Fin 3 → ℚ
  Roughness : ℚ
  MatTransform : Mat4Q

/-- The material update pass of `StencilApp` (lines 427-446; `Update` calls it
as `UpdateMaterialCBs`, though the source spells its definition
`UpdateMainPassCB`, duplicating the name of the pass-constant update that
follows it).  For each material with a positive `NumFramesDirty` it fetches
the current frame resource's material upload buffer into `currMaterialCB`,
builds `matConstants` from the diffuse albedo, Fresnel R0, roughness and
transposed material transform, and decrements the counter — but the body
contains no `currMaterialCB->CopyData(...)` call, so nothing is written into
the buffer.  The second component collects the `CopyData` calls made (none);
the third collects the `matConstants` values that were built and discarded. -/
def StencilApp.UpdateMaterialCBs :
    List MaterialState →
      List MaterialState × List (ℕ × MaterialConstants) × List MaterialConstants
  | [] => ([], [], [])
  | m :: rest =>
    let tail := StencilApp.UpdateMaterialCBs rest
    if 0 < m.NumFramesDirty then
      ({ m with NumFramesDirty := m.NumFramesDirty - 1 } :: tail.1,
       tail.2.1,
       (⟨m.DiffuseAlbedo, m.FresnelR0, m.Roughness, m.MatTransform.transpose⟩ :
         MaterialConstants) :: tail.2.2)
    else
      (m :: tail.1, tail.2.1, tail.2.2)

/-- C4: the material update pass writes no material constants into the current
frame resource's material upload buffer — the `CopyData` call list is empty
for every input — even though each dirty material's constants are computed and
its `NumFramesDirty` counter is decremented.  This contradicts the claim that
the constants are written at the material's constant-buffer index. -/
theorem material_cb_update_performs_no_copy :
    (∀ mats, (StencilApp.UpdateMaterialCBs mats).2.1 = []) ∧
    (∀ m : MaterialState, 0 < m.NumFramesDirty →
      (StencilApp.UpdateMaterialCBs [m]).1 =
        [{ m with NumFramesDirty := m.NumFramesDirty - 1 }] ∧
      (StencilApp.UpdateMaterialCBs [m]).2.2 =
        [⟨m.DiffuseAlbedo, m.FresnelR0, m.Roughness, m.MatTransform.transpose⟩] ∧
      (StencilApp.UpdateMaterialCBs [m]).2.1 = []) := by
  constructor
  · intro mats
    induction mats with
    | nil => rfl
    | cons m rest ih =>
        unfold StencilApp.UpdateMaterialCBs
        by_cases h : 0 < m.NumFramesDirty
        · simpa [h] using ih
        · simpa [h] using ih
  · intro m h
    refine ⟨?_, ?_, ?_⟩ <;> simp [StencilApp.UpdateMaterialCBs, h]

/-- Witness for `material_cb_update_performs_no_copy` at a concrete material
with the initial dirty counter `gNumFrameResources = 3`. -/
theorem material_cb_update_performs_no_copy_witness :
    let m0 : MaterialState := ⟨fun _ => 1, fun _ => 1/100, 1/4, 1, 0, 3⟩
    (StencilApp.UpdateMaterialCBs [m0]).1 =
      [{ m0 with NumFramesDirty := m0.NumFramesDirty - 1 }] ∧
    (StencilApp.UpdateMaterialCBs [m0]).2.2 =
      [⟨m0.DiffuseAlbedo, m0.FresnelR0, m0.Roughness, m0.MatTransform.transpose⟩] ∧
    (StencilApp.UpdateMaterialCBs [m0]).2.1 = [] :=
  material_cb_update_performs_no_copy.2 _ (by norm_num)

/-- An HRESULT: negative values are failures (`FAILED(hr)`). -/
def FAILED (hr : ℤ) : Bool := hr < 0

/-- The exception carrying a failing HRESULT that the framework throws. -/
structure DxException where
  ErrorCode : ℤ

/-- Modelled from the spec: `ThrowIfFailed` from `Common/d3dUtil.h`, which is
not under `src/`; per the spec, failing HRESULTs are propagated as exceptions
and nothing else: a failing HRESULT raises a `DxException` carrying it, a
succeeding one continues normally. -/
def ThrowIfFailed (hr : ℤ) : Except DxException Unit :=
  if FAILED hr then Except.error ⟨hr⟩ else Except.ok ()

/-- What a demo's `try` block produces: `Initialize()` returned false, the
message loop returned an exit code, or a `DxException` escaped. -/
inductive AppOutcome where
  | initFailed
  | ran (code : ℤ)
  | threw (e : DxException)

/-- The observable actions of `WinMain`. -/
inductive UIAction where
  | showMessageBox (e : DxException)

/-- `WinMain` of both demos (StencilApp.cpp lines 130-150 and 539-557),
as a function of what the `try` block does: `Initialize()` returning false
gives exit code 0; a normal run returns `Run()`'s code; a `DxException` is
caught, its message shown with `MessageBox`, and exit code 0 returned.  The
handler does nothing else: no retry, fallback, or state repair. -/
def winMain : AppOutcome → ℤ × List UIAction
  | AppOutcome.initFailed => (0, [])
  | AppOutcome.ran code => (code, [])
  | AppOutcome.threw e => (0, [UIAction.showMessageBox e])

/-- C7: every failing HRESULT from a checked Direct3D call is propagated as a
`DxException` and succeeding calls continue; `WinMain` of each demo catches the
exception, performs exactly one action — displaying its message — and returns
exit code 0, with no retry, fallback, or state repair on the failure path. -/
theorem hresult_failures_propagate_as_exceptions :
    (∀ hr : ℤ, FAILED hr = true → ThrowIfFailed hr = Except.error ⟨hr⟩) ∧
    (∀ hr : ℤ, FAILED hr = false → ThrowIfFailed hr = Except.ok ()) ∧
    (∀ e : DxException,
      winMain (AppOutcome.threw e) = (0, [UIAction.showMessageBox e])) := by
  refine ⟨fun hr h => ?_, fun hr h => ?_, fun e => rfl⟩
  · simp [ThrowIfFailed, h]
  · simp [ThrowIfFailed, h]

/-- Witness for `hresult_failures_propagate_as_exceptions` at the failing
HRESULT `E_FAIL = -2147467259` and the succeeding HRESULT `S_OK = 0`. -/
theorem hresult_failures_propagate_as_exceptions_witness :
    (FAILED (-2147467259) = true ∧
      ThrowIfFailed (-2147467259) = Except.error ⟨-2147467259⟩) ∧
    (FAILED 0 = false ∧ ThrowIfFailed 0 = Except.ok ()) ∧
    winMain (AppOutcome.threw ⟨-2147467259⟩) =
      (0, [UIAction.showMessageBox ⟨-2147467259⟩]) :=
  ⟨⟨by decide, hresult_failures_propagate_as_exceptions.1 _ (by decide)⟩,
   ⟨by decide, hresult_failures_propagate_as_exceptions.2.1 _ (by decide)⟩,
   hresult_failures_propagate_as_exceptions.2.2 _⟩

/-- `XMMatrixTranslation(x, y, z)` in DirectXMath's row-vector convention. -/
def XMMatrixTranslation (x y z : ℚ) : Mat4Q :=
  Matrix.of ![![1, 0, 0, 0], ![0, 1, 0, 0], ![0, 0, 1, 0], ![x, y, z, 1]]

/-- `XMMatrixScaling(x, y, z)`. -/
def XMMatrixScaling (x y z : ℚ) : Mat4Q :=
  Matrix.of ![![x, 0, 0, 0], ![0, y, 0, 0], ![0, 0, z, 0], ![0, 0, 0, 1]]

/-- `XMMatrixRotationY(0.5f * Pi)` (StencilApp.cpp line 364), with the
idealised exact trig values `cos(pi/2) = 0`, `sin(pi/2) = 1`. -/
def skullRotationHalfPiY : Mat4Q :=
  Matrix.of ![![0, 0, -1, 0], ![0, 1, 0, 0], ![1, 0, 0, 0], ![0, 0, 0, 1]]

/-- `XMPlaneDot(p, l)`: the 4-component dot product. -/
def dot4 (p l : Fin 4 → ℚ) : ℚ :=
  p 0 * l 0 + p 1 * l 1 + p 2 * l 2 + p 3 * l 3

/-- `XMMatrixReflect(p)` for an already normalised plane `p = (a, b, c, d)`:
row `i` is `p i * S + e i` with `S = (-2a, -2b, -2c, 0)`.  The plane the
source passes, `(0, 0, 1, 0)`, is unit, so `XMPlaneNormalize` is the identity
on it. -/
def XMMatrixReflect (p : Fin 4 → ℚ) : Mat4Q :=
  Matrix.of fun i j =>
    (if i = j then 1 else 0) + p i * (if j = 3 then 0 else -2 * p j)

/-- `XMMatrixShadow(p, l)` for an already normalised plane: row `i` is
`-(p i) * l + XMPlaneDot(p, l) * e i`.  The plane the source passes,
`(0, 1, 0, 0)`, is unit. -/
def XMMatrixShadow (p l : Fin 4 → ℚ) : Mat4Q :=
  Matrix.of fun i j => -(p i) * l j + (if i = j then dot4 p l else 0)

/-- The mirror plane `xy` (`XMVectorSet(0, 0, 1, 0)`, line 371). -/
def mirrorPlane : Fin 4 → ℚ := ![0, 0, 1, 0]

/-- The floor plane `xz` (`XMVectorSet(0, 1, 0, 0)`, line 376). -/
def shadowPlane : Fin 4 → ℚ := ![0, 1, 0, 0]

/-- `toMainLight = -XMLoadFloat3(&mMainPassCB.Lights[0].Direction)` (line 377):
loading a 3-vector sets `w = 0`, then every component is negated. -/
def toMainLight (dir : Fin 3 → ℚ) : Fin 4 → ℚ :=
  ![-(dir 0), -(dir 1), -(dir 2), 0]

/-- The skull-related state of `StencilApp`: `mSkullTranslation` and the
`World` matrices and dirty counters of the skull, reflected-skull and
shadowed-skull render items. -/
structure SkullState where
  tx : ℚ
  ty : ℚ
  tz : ℚ
  skullWorld : Mat4Q
  reflectedWorld : Mat4Q
  shadowedWorld : Mat4Q
  skullDirty : ℤ
  reflectedDirty : ℤ
  shadowedDirty : ℤ

/-- Which of the keys A, D, W, S `GetAsyncKeyState` reports held. -/
structure KeysDown where
  a : Bool
  d : Bool
  w : Bool
  s : Bool

/-- `StencilApp::OnKeyboardInput` (lines 341-385): move `mSkullTranslation` by
`1.75 * dt` per held key, force its `y` component to be at least `0`, rebuild
the skull world matrix `rotate * scale * offset`, set the reflected item's
world to `skullWorld * R` for the reflection `R` about the mirror plane, set
the shadowed item's world to `skullWorld * S * shadowOffsetY` for the planar
shadow `S` from the main light and a `+0.001` y-translation, and mark all
three render items dirty for `gNumFrameResources` frames. -/
def StencilApp.OnKeyboardInput (dt : ℚ) (k : KeysDown) (lightDir : Fin 3 → ℚ)
    (st : SkullState) : SkullState :=
  let tx1 := st.tx - (if k.a then 1.75 * dt else 0)
  let tx2 := tx1 + (if k.d then 1.75 * dt else 0)
  let ty1 := st.ty + (if k.w then 1.75 * dt else 0)
  let ty2 := ty1 - (if k.s then 1.75 * dt else 0)
  let ty3 := MathHelper.Max ty2 0
  let skullWorld :=
    skullRotationHalfPiY * XMMatrixScaling 0.4 0.4 0.4 *
      XMMatrixTranslation tx2 ty3 st.tz
  { tx := tx2
    ty := ty3
    tz := st.tz
    skullWorld := skullWorld
    reflectedWorld := skullWorld * XMMatrixReflect mirrorPlane
    shadowedWorld :=
      skullWorld * XMMatrixShadow shadowPlane (toMainLight lightDir) *
        XMMatrixTranslation 0 0.001 0
    skullDirty := (gNumFrameResources : ℤ)
    reflectedDirty := (gNumFrameResources : ℤ)
    shadowedDirty := (gNumFrameResources : ℤ) }

/-- C10: after every `StencilApp::OnKeyboardInput` call the skull's
y-translation is nonnegative, the reflected skull's world matrix is the
skull's world matrix times the reflection about the mirror plane `z = 0`, the
shadowed skull's world matrix is the skull's world matrix times the planar
shadow matrix for the main directional light times a `+0.001` y-translation,
and all three render items' dirty counters equal `gNumFrameResources`. -/
theorem skull_consistency (dt : ℚ) (k : KeysDown) (lightDir : Fin 3 → ℚ)
    (st : SkullState) :
    0 ≤ (StencilApp.OnKeyboardInput dt k lightDir st).ty ∧
    (StencilApp.OnKeyboardInput dt k lightDir st).reflectedWorld =
      (StencilApp.OnKeyboardInput dt k lightDir st).skullWorld *
        XMMatrixReflect mirrorPlane ∧
    (StencilApp.OnKeyboardInput dt k lightDir st).shadowedWorld =
      (StencilApp.OnKeyboardInput dt k lightDir st).skullWorld *
        XMMatrixShadow shadowPlane (toMainLight lightDir) *
        XMMatrixTranslation 0 0.001 0 ∧
    (StencilApp.OnKeyboardInput dt k lightDir st).skullDirty =
      (gNumFrameResources : ℤ) ∧
    (StencilApp.OnKeyboardInput dt k lightDir st).reflectedDirty =
      (gNumFrameResources : ℤ) ∧
    (StencilApp.OnKeyboardInput dt k lightDir st).shadowedDirty =
      (gNumFrameResources : ℤ) := by
  refine ⟨?_, rfl, rfl, rfl, rfl, rfl⟩
  show (0 : ℚ) ≤ MathHelper.Max _ 0
  unfold MathHelper.Max
  split_ifs <;> first | exact le_refl 0 | exact le_of_lt (by assumption)

/-- A 3-component XMVECTOR over the real model of float arithmetic. -/
structure Vec3 where
  x : ℝ
  y : ℝ
  z : ℝ

/-- Componentwise vector subtraction (`XMVectorSubtract`). -/
noncomputable def Vec3.sub (a b : Vec3) : Vec3 :=
  ⟨a.x - b.x, a.y - b.y, a.z - b.z⟩

/-- `XMVector3Length`. -/
noncomputable def Vec3.len (v : Vec3) : ℝ :=
  Real.sqrt (v.x ^ 2 + v.y ^ 2 + v.z ^ 2)

/-- `XMVector3Normalize` (on the vectors used here the length is nonzero; a
zero length would give infinities in DirectXMath and is modelled by Lean's
division by zero). -/
noncomputable def Vec3.normalize (v : Vec3) : Vec3 :=
  ⟨v.x / v.len, v.y / v.len, v.z / v.len⟩

/-- `XMVector3Cross`. -/
noncomputable def Vec3.cross (a b : Vec3) : Vec3 :=
  ⟨a.y * b.z - a.z * b.y, a.z * b.x - a.x * b.z, a.x * b.y - a.y * b.x⟩

/-- `XMVector3Dot`. -/
noncomputable def Vec3.dot (a b : Vec3) : ℝ :=
  a.x * b.x + a.y * b.y + a.z * b.z

/-- 4x4 real matrices in DirectXMath's row-vector convention. -/
abbrev Mat4R := Matrix (Fin 4) (Fin 4) ℝ

/-- `XMMatrixLookToLH(eye, dir, up)`: rows are the camera axes transposed into
columns, with the translation row holding the negated dot products. -/
noncomputable def XMMatrixLookToLH (eye dir up : Vec3) : Mat4R :=
  let zaxis := dir.normalize
  let xaxis := (up.cross zaxis).normalize
  let yaxis := zaxis.cross xaxis
  Matrix.of
    ![![xaxis.x, yaxis.x, zaxis.x, 0],
      ![xaxis.y, yaxis.y, zaxis.y, 0],
      ![xaxis.z, yaxis.z, zaxis.z, 0],
      ![-(xaxis.dot eye), -(yaxis.dot eye), -(zaxis.dot eye), 1]]

/-- `XMMatrixLookAtLH(eye, target, up) = XMMatrixLookToLH(eye, target - eye, up)`. -/
noncomputable def XMMatrixLookAtLH (eye target up : Vec3) : Mat4R :=
  XMMatrixLookToLH eye (target.sub eye) up

/-- `XMMatrixPerspectiveFovLH(fovY, aspect, zn, zf)`. -/
noncomputable def XMMatrixPerspectiveFovLH (fovY aspect zn zf : ℝ) : Mat4R :=
  let h := Real.cos (fovY / 2) / Real.sin (fovY / 2)
  let w := h / aspect
  let range := zf / (zf - zn)
  Matrix.of
    ![![w, 0, 0, 0], ![0, h, 0, 0], ![0, 0, range, 1], ![0, 0, -range * zn, 0]]

/-- The spherical-to-Cartesian conversion at the top of `BoxApp::Update`
(lines 601-603): `x = r sin(phi) cos(theta)`, `y = r cos(phi)`,
`z = r sin(phi) sin(theta)`. -/
noncomputable def sphericalEye (theta phi radius : ℝ) : Vec3 :=
  ⟨radius * Real.sin phi * Real.cos theta,
   radius * Real.cos phi,
   radius * Real.sin phi * Real.sin theta⟩

/-- The matrix-relevant state of `BoxApp`: the camera members together with
`mWorld`, `mView` and `mProj` (all initialised to `MathHelper::Identity4x4`). -/
structure BoxState where
  cam : CameraState ℝ
  world : Mat4R
  view : Mat4R
  proj : Mat4R

/-- The `ObjectConstants` struct of `BoxApp` (lines 482-485): the transposed
world-view-projection matrix and the running time. -/
structure BoxApp.ObjectConstants where
  WorldViewProj : Mat4R
  time : ℝ

/-- The view matrix `BoxApp::Update` computes from the camera state:
`XMMatrixLookAtLH(pos, 0, (0,1,0))` with `pos` from the spherical
coordinates. -/
noncomputable def BoxApp.viewOf (c : CameraState ℝ) : Mat4R :=
  XMMatrixLookAtLH (sphericalEye c.theta c.phi c.radius) ⟨0, 0, 0⟩ ⟨0, 1, 0⟩

/-- `BoxApp::Update` (lines 599-622): rebuild the view matrix from the
spherical camera, form `worldViewProj = world * view * proj`, and upload its
transpose together with `gt.TotalTime()` via `mObjectCB->CopyData(0, ...)`. -/
noncomputable def BoxApp.Update (totalTime : ℝ) (s : BoxState) :
    BoxState × ℕ × BoxApp.ObjectConstants :=
  let view := BoxApp.viewOf s.cam
  let worldViewProj := s.world * view * s.proj
  ({ s with view := view }, 0, ⟨worldViewProj.transpose, totalTime⟩)

/-- `BoxApp::OnResize` (lines 591-597): recompute the projection matrix with
`XMMatrixPerspectiveFovLH(0.25 * Pi, AspectRatio(), 1, 1000)`. -/
noncomputable def BoxApp.OnResize (aspect : ℝ) (s : BoxState) : BoxState :=
  { s with proj := XMMatrixPerspectiveFovLH (0.25 * Real.pi) aspect 1 1000 }

/-- `BoxApp::OnMouseMove` over the real camera (drag speed `0.01`, radius
clamp `[3, 15]`), with `XM_PI` modelled by the exact `Real.pi`. -/
noncomputable def BoxApp.mouseMove (btn : MouseButtons) (x y : ℤ)
    (c : CameraState ℝ) : CameraState ℝ :=
  onMouseMove Real.pi 0.01 3 15 btn x y c

/-- The initial member state of `BoxApp`: `mTheta = 1.5 * XM_PI`,
`mPhi = XM_PIDIV4`, `mRadius = 5`, all matrices identity, the last mouse
position uninitialised. -/
noncomputable def BoxApp.initState (lx ly : ℤ) : BoxState :=
  ⟨⟨1.5 * Real.pi, Real.pi / 4, 5, lx, ly⟩, 1, 1, 1⟩

/-- States of `BoxApp` reachable from its initial members through its
overridden handlers; `draw` and `mouseUp` do not write any of these fields. -/
inductive BoxApp.Reach : BoxState → Prop where
  | start (lx ly : ℤ) : BoxApp.Reach (BoxApp.initState lx ly)
  | update {s} (t : ℝ) : BoxApp.Reach s → BoxApp.Reach (BoxApp.Update t s).1
  | draw {s} : BoxApp.Reach s → BoxApp.Reach s
  | resize {s} (aspect : ℝ) :
      BoxApp.Reach s → BoxApp.Reach (BoxApp.OnResize aspect s)
  | mouseDown {s} (x y : ℤ) :
      BoxApp.Reach s → BoxApp.Reach { s with cam := onMouseDown x y s.cam }
  | mouseUp {s} : BoxApp.Reach s → BoxApp.Reach s
  | mouseMove {s} (btn : MouseButtons) (x y : ℤ) :
      BoxApp.Reach s → BoxApp.Reach { s with cam := BoxApp.mouseMove btn x y s.cam }

theorem boxReach_world_eq_one {s : BoxState} (h : BoxApp.Reach s) : s.world = 1 := by
  induction h with
  | start lx ly => rfl
  | update t _ ih => exact ih
  | draw _ ih => exact ih
  | resize aspect _ ih => exact ih
  | mouseDown x y _ ih => exact ih
  | mouseUp _ ih => exact ih
  | mouseMove btn x y _ ih => exact ih

theorem XMMatrixLookAtLH_entry_two_two (eye target up : Vec3) :
    XMMatrixLookAtLH eye target up 2 2 = (target.sub eye).normalize.z := rfl

theorem sin_box_theta0 : Real.sin (1.5 * Real.pi) = -1 := by
  have h : (1.5 : ℝ) * Real.pi = Real.pi / 2 + Real.pi := by ring
  rw [h, Real.sin_add_pi, Real.sin_pi_div_two]

theorem cos_box_theta0 : Real.cos (1.5 * Real.pi) = 0 := by
  have h : (1.5 : ℝ) * Real.pi = Real.pi / 2 + Real.pi := by ring
  rw [h, Real.cos_add_pi, Real.cos_pi_div_two, neg_zero]

theorem sin_box_theta1 : Real.sin (1.5 * Real.pi + Real.pi) = 1 := by
  rw [Real.sin_add_pi, sin_box_theta0]; norm_num

theorem cos_box_theta1 : Real.cos (1.5 * Real.pi + Real.pi) = 0 := by
  rw [Real.cos_add_pi, cos_box_theta0, neg_zero]

theorem sphericalEye_box_theta0 :
    sphericalEye (1.5 * Real.pi) (Real.pi / 4) 5 =
      ⟨0, 5 * (Real.sqrt 2 / 2), -(5 * (Real.sqrt 2 / 2))⟩ := by
  unfold sphericalEye
  rw [sin_box_theta0, cos_box_theta0, Real.sin_pi_div_four, Real.cos_pi_div_four]
  simp [Vec3.mk.injEq]

theorem sphericalEye_box_theta1 :
    sphericalEye (1.5 * Real.pi + Real.pi) (Real.pi / 4) 5 =
      ⟨0, 5 * (Real.sqrt 2 / 2), 5 * (Real.sqrt 2 / 2)⟩ := by
  unfold sphericalEye
  rw [sin_box_theta1, cos_box_theta1, Real.sin_pi_div_four, Real.cos_pi_div_four]
  simp [Vec3.mk.injEq]

theorem normalize_z_box_eye0 :
    (Vec3.sub ⟨0,0,0⟩ ⟨0, 5 * (Real.sqrt 2 / 2), -(5 * (Real.sqrt 2 / 2))⟩).normalize.z =
      Real.sqrt 2 / 2 := by
  have hlen : (Vec3.sub ⟨0,0,0⟩
      ⟨0, 5 * (Real.sqrt 2 / 2), -(5 * (Real.sqrt 2 / 2))⟩).len = 5 := by
    unfold Vec3.sub Vec3.len
    have h2 : Real.sqrt 2 ^ 2 = 2 := Real.sq_sqrt (by norm_num)
    have hsum : ((0:ℝ) - 0) ^ 2 + (0 - 5 * (Real.sqrt 2 / 2)) ^ 2 +
        (0 - -(5 * (Real.sqrt 2 / 2))) ^ 2 = 25 := by
      linear_combination (25/2 : ℝ) * h2
    rw [hsum]
    rw [show (25:ℝ) = 5 ^ 2 by norm_num, Real.sqrt_sq (by norm_num)]
  unfold Vec3.normalize
  rw [hlen]
  show ((0:ℝ) - -(5 * (Real.sqrt 2 / 2))) / 5 = Real.sqrt 2 / 2
  ring

theorem normalize_z_box_eye1 :
    (Vec3.sub ⟨0,0,0⟩ ⟨0, 5 * (Real.sqrt 2 / 2), 5 * (Real.sqrt 2 / 2)⟩).normalize.z =
      -(Real.sqrt 2 / 2) := by
  have hlen : (Vec3.sub ⟨0,0,0⟩
      ⟨0, 5 * (Real.sqrt 2 / 2), 5 * (Real.sqrt 2 / 2)⟩).len = 5 := by
    unfold Vec3.sub Vec3.len
    have h2 : Real.sqrt 2 ^ 2 = 2 := Real.sq_sqrt (by norm_num)
    have hsum : ((0:ℝ) - 0) ^ 2 + (0 - 5 * (Real.sqrt 2 / 2)) ^ 2 +
        (0 - 5 * (Real.sqrt 2 / 2)) ^ 2 = 25 := by
      linear_combination (25/2 : ℝ) * h2
    rw [hsum]
    rw [show (25:ℝ) = 5 ^ 2 by norm_num, Real.sqrt_sq (by norm_num)]
  unfold Vec3.normalize
  rw [hlen]
  show ((0:ℝ) - 5 * (Real.sqrt 2 / 2)) / 5 = -(Real.sqrt 2 / 2)
  ring

theorem box_moved_theta :
    (BoxApp.mouseMove ⟨true, false⟩ 720 0 (BoxApp.initState 0 0).cam).theta =
      1.5 * Real.pi + Real.pi := by
  show (1.5 * Real.pi) +
      XMConvertToRadians Real.pi ((1/4) * (((720:ℤ):ℝ) - ((0:ℤ):ℝ))) =
    1.5 * Real.pi + Real.pi
  unfold XMConvertToRadians
  push_cast
  ring

theorem box_moved_phi :
    (BoxApp.mouseMove ⟨true, false⟩ 720 0 (BoxApp.initState 0 0).cam).phi =
      Real.pi / 4 := by
  show MathHelper.Clamp (Real.pi / 4 +
      XMConvertToRadians Real.pi ((1/4) * (((0:ℤ):ℝ) - ((0:ℤ):ℝ))))
      (1/10) (Real.pi - 1/10) = Real.pi / 4
  have harg : Real.pi / 4 +
      XMConvertToRadians Real.pi ((1/4) * (((0:ℤ):ℝ) - ((0:ℤ):ℝ))) = Real.pi / 4 := by
    unfold XMConvertToRadians
    push_cast
    ring
  rw [harg]
  unfold MathHelper.Clamp
  have hpi := Real.pi_gt_three
  rw [if_neg (by linarith), if_neg (by linarith)]

theorem box_moved_radius :
    (BoxApp.mouseMove ⟨true, false⟩ 720 0 (BoxApp.initState 0 0).cam).radius = 5 := rfl

theorem box_view_changes_under_left_drag :
    BoxApp.viewOf (BoxApp.mouseMove ⟨true, false⟩ 720 0 (BoxApp.initState 0 0).cam) ≠
      BoxApp.viewOf (BoxApp.initState 0 0).cam := by
  intro hEq
  have h22 := congrFun (congrFun hEq 2) 2
  have hL : BoxApp.viewOf
      (BoxApp.mouseMove ⟨true, false⟩ 720 0 (BoxApp.initState 0 0).cam) 2 2 =
      -(Real.sqrt 2 / 2) := by
    unfold BoxApp.viewOf
    rw [XMMatrixLookAtLH_entry_two_two]
    rw [show sphericalEye
          (BoxApp.mouseMove ⟨true, false⟩ 720 0 (BoxApp.initState 0 0).cam).theta
          (BoxApp.mouseMove ⟨true, false⟩ 720 0 (BoxApp.initState 0 0).cam).phi
          (BoxApp.mouseMove ⟨true, false⟩ 720 0 (BoxApp.initState 0 0).cam).radius =
        sphericalEye (1.5 * Real.pi + Real.pi) (Real.pi / 4) 5 by
      rw [box_moved_theta, box_moved_phi, box_moved_radius]]
    rw [sphericalEye_box_theta1]
    exact normalize_z_box_eye1
  have hR : BoxApp.viewOf (BoxApp.initState 0 0).cam 2 2 = Real.sqrt 2 / 2 := by
    unfold BoxApp.viewOf
    rw [XMMatrixLookAtLH_entry_two_two]
    show (Vec3.sub ⟨0,0,0⟩ (sphericalEye (1.5 * Real.pi) (Real.pi / 4) 5)).normalize.z = _
    rw [sphericalEye_box_theta0]
    exact normalize_z_box_eye0
  rw [hL, hR] at h22
  have hs2 : (0:ℝ) < Real.sqrt 2 / 2 := by
    have := Real.sqrt_pos.mpr (show (0:ℝ) < 2 by norm_num)
    linarith
  linarith

theorem box_radius_changes_under_right_drag :
    (BoxApp.mouseMove ⟨false, true⟩ 100 0 (BoxApp.initState 0 0).cam).radius ≠
      (BoxApp.initState 0 0).cam.radius := by
  show MathHelper.Clamp ((5:ℝ) + 0.01 * (((100:ℤ):ℝ) - ((0:ℤ):ℝ)) -
      0.01 * (((0:ℤ):ℝ) - ((0:ℤ):ℝ))) 3 15 ≠ 5
  have harg : (5:ℝ) + 0.01 * (((100:ℤ):ℝ) - ((0:ℤ):ℝ)) -
      0.01 * (((0:ℤ):ℝ) - ((0:ℤ):ℝ)) = 6 := by
    push_cast
    norm_num
  rw [harg]
  unfold MathHelper.Clamp
  rw [if_neg (by norm_num), if_neg (by norm_num)]
  norm_num

/-- C8: `BoxApp` renders a colored box whose on-screen orientation changes
through the world-view-projection matrix that `Update` recomputes and uploads
to the object constant buffer every frame: `mWorld` stays the identity in
every reachable state, each `Update` uploads
`transpose(world * view * proj)` (plus the running time) at index 0, a
left-mouse drag changes the recomputed view matrix (orbiting the camera), and
a right-mouse drag changes the camera radius. -/
theorem box_rotating_colored_box :
    (∀ s, BoxApp.Reach s → s.world = 1) ∧
    (∀ (t : ℝ) (s : BoxState),
      (BoxApp.Update t s).2 =
        (0, ⟨(s.world * BoxApp.viewOf s.cam * s.proj).transpose, t⟩)) ∧
    BoxApp.viewOf (BoxApp.mouseMove ⟨true, false⟩ 720 0 (BoxApp.initState 0 0).cam) ≠
      BoxApp.viewOf (BoxApp.initState 0 0).cam ∧
    (BoxApp.mouseMove ⟨false, true⟩ 100 0 (BoxApp.initState 0 0).cam).radius ≠
      (BoxApp.initState 0 0).cam.radius :=
  ⟨fun _ h => boxReach_world_eq_one h, fun _ _ => rfl,
   box_view_changes_under_left_drag, box_radius_changes_under_right_drag⟩

/-- Witness for `box_rotating_colored_box` at the initial state. -/
theorem box_rotating_colored_box_witness :
    (BoxApp.initState 0 0).world = 1 :=
  box_rotating_colored_box.1 _ (BoxApp.Reach.start 0 0)
